import Mathlib

/-!
Verification of the AI-Chat-App backend (FastAPI + agent manager).

The repository code under `src/backend` is embedded shallowly:

* `agent.py` — `AgentManager` with its FAISS vector store, conversation
  memory, calculator tool and Gemini backend;
* `routes.py` — the `/upload` and `/chat` handlers.

External collaborators that are not part of this repository (the FAISS
vector store, the LangChain text splitter, `PythonREPL`, the embedding
model and the LLM backend) are modelled from the spec at their interface
boundaries: the embedding model and the LLM are abstract function
parameters, and the FAISS search behaviour follows the contract given in
the spec (nearest-first, ties by insertion order, at most `k` results).
-/

namespace AIChatApp

/-- Roles of conversation-memory entries. -/
inductive Role
| user
| agent
deriving DecidableEq, Repr

/-- Embeddings are fixed-length numeric vectors; we use integer vectors so
that distances are exactly computable. -/
abbrev Embedding := List Int

/-- Squared Euclidean distance between two embeddings (monotone equivalent
of the L2 metric used by the FAISS index). -/
def sqDist (a b : Embedding) : Int :=
  ((a.zip b).map (fun p => (p.1 - p.2) * (p.1 - p.2))).sum

/-- The error taxonomy relevant to the embedded fragment. -/
inductive ConfigError
| invalidK
| missingApiKey
deriving DecidableEq, Repr

/-- The vector index: chunk texts paired with their embeddings, in
insertion order.  Embeds the FAISS store held in
`AgentManager.vector_store` (agent.py). -/
structure VectorIndex where
  entries : List (String × Embedding)
deriving DecidableEq, Repr

/-- Modelled from the spec: `FAISS.from_texts(texts, embeddings)` — the
FAISS/LangChain sources are not part of this repository.  Builds a fresh
index holding exactly one entry per given chunk, in the given order, each
embedded by the supplied embedding service (spec §4.2 `rebuild`). -/
def VectorIndex.from_texts (texts : List String) (embed : String → Embedding) : VectorIndex :=
  ⟨texts.map (fun t => (t, embed t))⟩

/-- Pair every entry with its insertion index and its distance to the
query embedding, starting from index `i`. -/
def scoreFrom (i : Nat) (qe : Embedding) : List (String × Embedding) → List (Nat × String × Int)
| [] => []
| (t, e) :: rest => (i, t, sqDist e qe) :: scoreFrom (i + 1) qe rest

/-- Ranking used by the search: smaller distance first, ties broken by
smaller insertion index. -/
def NearerFirst (a b : Nat × String × Int) : Prop :=
  a.2.2 < b.2.2 ∨ (a.2.2 = b.2.2 ∧ a.1 ≤ b.1)

instance : DecidableRel NearerFirst := fun a b => by
  unfold NearerFirst; exact inferInstance

instance : IsTotal (Nat × String × Int) NearerFirst :=
  ⟨by intro a b; unfold NearerFirst; omega⟩

instance : IsTrans (Nat × String × Int) NearerFirst :=
  ⟨by intro a b c; unfold NearerFirst; omega⟩

/-- Modelled from the spec: the nearest-neighbor search of the FAISS index
(not part of this repository) — the `k` entries nearest to the query
embedding, nearest first, ties broken by insertion order (spec §4.2).
Returns each hit with its insertion index and distance. -/
def VectorIndex.searchRanked (v : VectorIndex) (qe : Embedding) (k : Nat) :
    List (Nat × String × Int) :=
  ((scoreFrom 0 qe v.entries).insertionSort NearerFirst).take k

/-- Modelled from the spec: `FAISS.similarity_search(query, k)` as used by
`AgentManager.get_similar_docs`; the library is not part of this
repository.  `k ≤ 0` is a configuration error (spec §4.2); otherwise the
`min(k, indexSize)` nearest chunk texts are returned. -/
def VectorIndex.similarity_search (v : VectorIndex) (qe : Embedding) (k : Int) :
    Except ConfigError (List String) :=
  if k ≤ 0 then .error ConfigError.invalidK
  else .ok ((v.searchRanked qe k.toNat).map (fun r => r.2.1))

/-- A registry entry: named, described, callable capability
(langchain `Tool`, agent.py). -/
structure Tool where
  name : String
  description : String
  func : String → String

/-- The name under which the Python-REPL tool is registered (agent.py). -/
def calculatorName : String := "calculator"

/-- The description of the calculator tool (agent.py). -/
def calculatorDescription : String :=
  "Useful for when you need to perform mathematical calculations. Input should be a valid Python expression."

/-- The calculator tool built in `AgentManager._setup_agent` (agent.py):
its invoke function is `python_repl.run` itself, passed through unchanged.
`PythonREPL.run` is external code, taken here as an abstract interpreter
`pyRun`. -/
def calculator (pyRun : String → String) : Tool :=
  { name := calculatorName
    description := calculatorDescription
    func := pyRun }

/-- The process environment, as read by `os.getenv`. -/
structure Env where
  lookup : String → Option String

/-- The environment variable holding the backend credential (agent.py). -/
def googleApiKeyName : String := "GOOGLE_API_KEY"

/-- From `AgentManager._setup_agent` (agent.py lines 102-105): read
`GOOGLE_API_KEY` from the environment and fail when it is unset or empty
(Python truthiness of `if not google_api_key`). -/
def getApiKey (env : Env) : Except ConfigError String :=
  match env.lookup googleApiKeyName with
  | none => .error ConfigError.missingApiKey
  | some s => if s = "" then .error ConfigError.missingApiKey else .ok s

/-- The process-wide agent state (`AgentManager`, agent.py): the embedding
service and LLM backend are abstract external functions; the vector store,
the conversation memory and the tool list are the mutable state. -/
structure AgentManager where
  embed : String → Embedding
  llm : List (Role × String) → String → String
  vector_store : VectorIndex
  memory : List (Role × String)
  tools : List Tool

/-- `AgentManager.__init__` / `_setup_agent` (agent.py): build the vector
store from the single placeholder empty string, check the credential, and
set up the agent with the calculator tool and an empty conversation
memory.  Fails with a configuration error when the credential is absent. -/
def AgentManager.init (env : Env) (embed : String → Embedding)
    (llm : List (Role × String) → String → String) (pyRun : String → String) :
    Except ConfigError AgentManager :=
  let emptyText : String := ""
  let vs := VectorIndex.from_texts [emptyText] embed
  match getApiKey env with
  | .error e => .error e
  | .ok _ =>
      .ok { embed := embed
            llm := llm
            vector_store := vs
            memory := []
            tools := [calculator pyRun] }

/-- `AgentManager.update_vector_store` (agent.py line 140): replace the
current vector store with a fresh one built from exactly the given
chunks. -/
def AgentManager.update_vector_store (m : AgentManager) (texts : List String) : AgentManager :=
  { m with vector_store := VectorIndex.from_texts texts m.embed }

/-- `AgentManager.get_similar_docs` (agent.py line 153): delegate to the
similarity search of the stored index, embedding the query with the
process-wide embedding service. -/
def AgentManager.get_similar_docs (m : AgentManager) (query : String) (k : Int) :
    Except ConfigError (List String) :=
  m.vector_store.similarity_search (m.embed query) k

/-- Modelled from the spec: `AgentManager.run_agent` (agent.py line 165)
runs the LangChain agent, whose `ConversationBufferMemory` is external
code; per spec §4.5 the submitted input and the produced answer are
appended to the conversation memory as the `(user, ...)` and
`(agent, ...)` turns of this request. -/
def AgentManager.run_agent (m : AgentManager) (input : String) : String × AgentManager :=
  let answer := m.llm m.memory input
  (answer, { m with memory := m.memory ++ [(Role.user, input), (Role.agent, answer)] })

/-! ### Routes (routes.py) -/

/-- The accepted upload extensions (routes.py line 69). -/
def txtExt : String := ".txt"

/-- The accepted upload extensions (routes.py line 69). -/
def pdfExt : String := ".pdf"

/-- Python `filename.endswith((".txt", ".pdf"))`. -/
def pyEndsWith (s pat : String) : Bool :=
  pat.toList.isSuffixOf s.toList

/-- The fixed chunker configuration (routes.py lines 88-91). -/
def CHUNK_SIZE : Nat := 1000

/-- The fixed chunker configuration (routes.py lines 88-91). -/
def CHUNK_OVERLAP : Nat := 200

/-- The observable outcome of one call to the `/upload` handler: the HTTP
status returned, whether the temporary file was created, and whether it
was deleted again. -/
structure UploadOutcome where
  status : Nat
  tempCreated : Bool
  tempDeleted : Bool
deriving DecidableEq, Repr

/-- The `/upload` handler `upload_file` (routes.py lines 49-98).

* `split` stands for `RecursiveCharacterTextSplitter(...).split_text`, the
  LangChain chunker, taken abstract (text, chunk size, overlap ↦ chunks);
* `extracted` is the outcome of the file IO: reading the temporary file as
  text, or extracting text from the PDF — `.error` when any of those steps
  raises.

Control flow as in the source: reject foreign extensions with a 400 before
anything else; then write the temporary file; inside `try`, extract the
text, split it with the fixed configuration and replace the vector store;
any exception becomes a 500; `finally` deletes the temporary file. -/
def upload_file (m : AgentManager) (split : String → Nat → Nat → List String)
    (filename : String) (extracted : Except String String) :
    UploadOutcome × AgentManager :=
  if !(pyEndsWith filename txtExt || pyEndsWith filename pdfExt) then
    ({ status := 400, tempCreated := false, tempDeleted := false }, m)
  else
    match extracted with
    | .error _ => ({ status := 500, tempCreated := true, tempDeleted := true }, m)
    | .ok text =>
        let chunks := split text CHUNK_SIZE CHUNK_OVERLAP
        ({ status := 200, tempCreated := true, tempDeleted := true },
         m.update_vector_store chunks)

/-- The default `k` of `get_similar_docs` (agent.py line 142), as used by
the `/chat` handler. -/
def defaultK : Int := 3

/-- The separator joining the retrieved chunks (routes.py line 123). -/
def newline : String := "\n"

/-- The fixed text of the prompt built by the `/chat` handler
(routes.py lines 125-138), before the retrieved context. -/
def promptPart1 : String :=
  "You are a helpful AI assistant.\n\nContext from documents (if available):\n"

/-- The fixed prompt text between the retrieved context and the question. -/
def promptPart2 : String := "\n\nUser Question: "

/-- The fixed prompt text after the question. -/
def promptPart3 : String :=
  "\n\nInstructions:\n- First, try to answer the question based on the provided context.\n- If the context does not contain the necessary information, rely on your general knowledge to answer.\n- If the question requires calculations, use the calculator tool.\n- Consider the conversation history when formulating your response.\n\nProvide a clear, helpful, and accurate answer."

/-- The prompt the `/chat` handler assembles from the retrieved context
and the question (routes.py lines 125-138). -/
def buildPrompt (context question : String) : String :=
  promptPart1 ++ context ++ promptPart2 ++ question ++ promptPart3

/-- The `/chat` handler (routes.py lines 101-145): retrieve context with
the default `k`, assemble the prompt, run the agent; the answer is
returned and the memory grows inside `run_agent`.  A raised exception
would become a 500, modelled as the `.error` branch. -/
def chat (m : AgentManager) (question : String) : Except Nat String × AgentManager :=
  match m.get_similar_docs question defaultK with
  | .error _ => (.error 500, m)
  | .ok docs =>
      let context := String.intercalate newline docs
      let prompt := buildPrompt context question
      let (answer, m2) := m.run_agent prompt
      (.ok answer, m2)

/-- Iterated chat turns: the state after serving the given questions in
order. -/
def chatN (m : AgentManager) : List String → AgentManager
| [] => m
| q :: qs => chatN (chat m q).2 qs

/-- The application: a process that serves requests.  It exists only once
the process-wide `agent_manager = AgentManager()` (agent.py line 168) has
been constructed, since routes.py imports it at module load. -/
structure App where
  manager : AgentManager

/-- Process startup (main.py / module import of backend.agent): the global
`AgentManager` instance is constructed before the app exists, so before
any request can be served; a configuration error here is fatal. -/
def startProcess (env : Env) (embed : String → Embedding)
    (llm : List (Role × String) → String → String) (pyRun : String → String) :
    Except ConfigError App :=
  match AgentManager.init env embed llm pyRun with
  | .error e => .error e
  | .ok m => .ok { manager := m }

/-! ### Helper lemmas about the search -/

theorem length_scoreFrom (i : Nat) (qe : Embedding) (l : List (String × Embedding)) :
    (scoreFrom i qe l).length = l.length := by
  induction l generalizing i with
  | nil => rfl
  | cons a rest ih => cases a; simp [scoreFrom, ih]

theorem mem_scoreFrom {r : Nat × String × Int} (i : Nat) (qe : Embedding)
    (l : List (String × Embedding)) (h : r ∈ scoreFrom i qe l) :
    r.2.1 ∈ l.map Prod.fst := by
  induction l generalizing i with
  | nil => simp [scoreFrom] at h
  | cons a rest ih =>
      cases a with
      | mk t e =>
          simp only [scoreFrom, List.mem_cons] at h
          rcases h with h | h
          · subst h; simp
          · simpa using Or.inr (ih (i + 1) h)

theorem scoreFrom_mem_of_mem {te : String × Embedding} (i : Nat) (qe : Embedding)
    (l : List (String × Embedding)) (h : te ∈ l) :
    ∃ j, (j, te.1, sqDist te.2 qe) ∈ scoreFrom i qe l := by
  induction l generalizing i with
  | nil => simp at h
  | cons a rest ih =>
      cases a with
      | mk t e =>
          rcases List.mem_cons.mp h with h | h
          · subst h; exact ⟨i, by simp [scoreFrom]⟩
          · obtain ⟨j, hj⟩ := ih (i + 1) h
            exact ⟨j, by simp [scoreFrom, hj]⟩

theorem length_searchRanked (v : VectorIndex) (qe : Embedding) (k : Nat) :
    (v.searchRanked qe k).length = min k v.entries.length := by
  unfold VectorIndex.searchRanked
  simp [List.length_take, length_scoreFrom]

theorem sorted_searchRanked (v : VectorIndex) (qe : Embedding) (k : Nat) :
    List.Sorted NearerFirst (v.searchRanked qe k) :=
  List.Pairwise.take (List.sorted_insertionSort NearerFirst _)

theorem mem_searchRanked {r : Nat × String × Int} (v : VectorIndex) (qe : Embedding)
    (k : Nat) (h : r ∈ v.searchRanked qe k) : r.2.1 ∈ v.entries.map Prod.fst := by
  unfold VectorIndex.searchRanked at h
  have h2 := (List.take_sublist k _).subset h
  rw [List.mem_insertionSort] at h2
  exact mem_scoreFrom 0 qe v.entries h2

theorem searchRanked_all_of_le (v : VectorIndex) (qe : Embedding) (k : Nat)
    (hk : v.entries.length ≤ k) :
    v.searchRanked qe k = (scoreFrom 0 qe v.entries).insertionSort NearerFirst := by
  unfold VectorIndex.searchRanked
  exact List.take_of_length_le (by simpa [length_scoreFrom] using hk)

theorem searchRanked_perm_of_le (v : VectorIndex) (qe : Embedding) (k : Nat)
    (hk : v.entries.length ≤ k) :
    (v.searchRanked qe k).Perm (scoreFrom 0 qe v.entries) := by
  rw [searchRanked_all_of_le v qe k hk]
  exact List.perm_insertionSort NearerFirst _

theorem map_fst_scoreFrom (i : Nat) (qe : Embedding) (l : List (String × Embedding)) :
    (scoreFrom i qe l).map (fun r => r.2.1) = l.map Prod.fst := by
  induction l generalizing i with
  | nil => rfl
  | cons a rest ih => cases a; simp [scoreFrom, ih]

/-! ### Concrete instances used by the witnesses -/

/-- A concrete embedding service: the length of the text. -/
def embed0 : String → Embedding := fun s => [Int.ofNat s.length]

/-- The answer of the concrete LLM backend. -/
def ansA : String := "A"

/-- A concrete LLM backend that always answers `ansA`. -/
def llm0 : List (Role × String) → String → String := fun _ _ => ansA

/-- A concrete Python interpreter stand-in. -/
def py0 : String → String := fun s => s

/-- A concrete credential value. -/
def apiKey0 : String := "k"

/-- An environment holding the credential. -/
def env0 : Env := ⟨fun _ => some apiKey0⟩

/-- An environment missing every variable. -/
def envMissing : Env := ⟨fun _ => none⟩

/-- The empty string (the placeholder chunk). -/
def emptyStr : String := ""

/-- The agent-manager state produced by a successful startup with the
concrete collaborators. -/
def mInit0 : AgentManager :=
  { embed := embed0
    llm := llm0
    vector_store := VectorIndex.from_texts [emptyStr] embed0
    memory := []
    tools := [calculator py0] }

theorem init_env0 : AgentManager.init env0 embed0 llm0 py0 = .ok mInit0 := rfl

/-- The app produced by a successful startup with the concrete
collaborators. -/
def app0 : App := ⟨mInit0⟩

/-- Concrete document texts and queries. -/
def doc1 : String := "a"

/-- Concrete document texts and queries. -/
def doc2 : String := "b"

/-- Concrete document texts and queries. -/
def q0 : String := "q"

/-- A concrete question. -/
def qHi : String := "hi"

/-- A concrete extracted text. -/
def textX : String := "x"

/-- A concrete extraction failure message. -/
def errBoom : String := "boom"

/-- A filename that passes the extension check. -/
def fileTxt : String := "a.txt"

/-- A filename that fails the extension check. -/
def fileExe : String := "a.exe"

/-- A non-arithmetic program text. -/
def pyProg : String := "x = 5"

/-- A concrete chunker. -/
def splitId : String → Nat → Nat → List String := fun t _ _ => [t]

/-- A second concrete chunker that agrees with `splitId` at chunk size
1000. -/
def splitAlt : String → Nat → Nat → List String :=
  fun t a _ => if a == 1000 then [t] else []

/-- The agent-manager state used by the search witness. -/
def mSearch : AgentManager := mInit0.update_vector_store [doc1, doc2]

/-! ### Startup and chat lemmas -/

theorem init_ok_eq (env : Env) (embed : String → Embedding)
    (llm : List (Role × String) → String → String) (pyRun : String → String)
    (m : AgentManager) (h : AgentManager.init env embed llm pyRun = .ok m) :
    m = { embed := embed
          llm := llm
          vector_store := VectorIndex.from_texts [emptyStr] embed
          memory := []
          tools := [calculator pyRun] } := by
  unfold AgentManager.init at h
  rcases hg : getApiKey env with e | s <;> rw [hg] at h <;> simp at h
  exact h.symm

theorem startProcess_ok (env : Env) (embed : String → Embedding)
    (llm : List (Role × String) → String → String) (pyRun : String → String)
    (app : App) (h : startProcess env embed llm pyRun = .ok app) :
    AgentManager.init env embed llm pyRun = .ok app.manager := by
  unfold startProcess at h
  rcases hi : AgentManager.init env embed llm pyRun with e | m0 <;> rw [hi] at h
  · cases h
  · cases h
    rfl

/-- The context string the `/chat` handler retrieves for a question. -/
def chatCtx (m : AgentManager) (q : String) : String :=
  String.intercalate newline
    ((m.vector_store.searchRanked (m.embed q) defaultK.toNat).map (fun r => r.2.1))

theorem chat_step (m : AgentManager) (q : String) :
    (chat m q).1 = .ok (m.llm m.memory (buildPrompt (chatCtx m q) q)) ∧
    (chat m q).2.memory
      = m.memory ++ [(Role.user, buildPrompt (chatCtx m q) q),
                     (Role.agent, m.llm m.memory (buildPrompt (chatCtx m q) q))] := by
  have hk : ¬(defaultK ≤ 0) := by decide
  unfold chat AgentManager.get_similar_docs VectorIndex.similarity_search
  rw [if_neg hk]
  simp [AgentManager.run_agent, chatCtx]

/-! ### The claims -/

/-- C1: `update_vector_store` discards the previous index wholesale — the
index after an ingestion equals a fresh index built from exactly the given
chunks (independent of every prior ingestion), and after a second
ingestion every chunk retrievable by search belongs to the second chunk
list, so no chunk unique to the first ingestion remains retrievable. -/
theorem c1_ingestion_replaces_wholesale
    (m : AgentManager) (t1 t2 : List String) (q : String) (k : Int)
    (l : List String) (c : String)
    (h : ((m.update_vector_store t1).update_vector_store t2).get_similar_docs q k = .ok l)
    (hc : c ∈ l) :
    ((m.update_vector_store t1).update_vector_store t2).vector_store
      = VectorIndex.from_texts t2 m.embed ∧ c ∈ t2 := by
  refine ⟨rfl, ?_⟩
  unfold AgentManager.get_similar_docs VectorIndex.similarity_search at h
  by_cases hk : k ≤ 0
  · rw [if_pos hk] at h; cases h
  · rw [if_neg hk] at h
    injection h with h
    subst h
    obtain ⟨r, hr, hre⟩ := List.mem_map.mp hc
    have hmem := mem_searchRanked _ _ _ hr
    rw [← hre]
    simpa [AgentManager.update_vector_store, VectorIndex.from_texts,
           List.map_map, Function.comp] using hmem

/-- Witness for C1 at a concrete double ingestion. -/
theorem c1_ingestion_replaces_wholesale_witness :
    ((mInit0.update_vector_store [doc1]).update_vector_store [doc2]).vector_store
      = VectorIndex.from_texts [doc2] mInit0.embed ∧ doc2 ∈ [doc2] :=
  c1_ingestion_replaces_wholesale mInit0 [doc1] [doc2] q0 1 [doc2] doc2 rfl (by decide)

/-- C2 (counterexample): the conversation-memory entry recorded for the
user after a successful chat with question `qHi` is not `(user, qHi)` —
the recorded text is the full constructed prompt, not the bare question. -/
theorem c2_counterexample_user_entry_not_question :
    mInit0.memory = [] ∧
    (chat mInit0 qHi).1 = .ok ansA ∧
    (chat mInit0 qHi).2.memory.head? ≠ some (Role.user, qHi) :=
  ⟨rfl, rfl, by decide⟩

/-- C2 (amended): every successful chat with question q extends the
memory by exactly one `(user, p)` entry followed by one `(agent, a)`
entry, where `a` is the returned answer and `p` is the full prompt built
from the retrieved context and q (not q alone); hence after N chat turns
the memory holds exactly N user entries and N agent entries, appended in
chronological order. -/
theorem c2_memory_one_pair_per_chat :
    (∀ (m : AgentManager) (q : String), ∃ p a,
        (chat m q).1 = .ok a ∧
        (∃ ctx, p = buildPrompt ctx q) ∧
        (chat m q).2.memory = m.memory ++ [(Role.user, p), (Role.agent, a)]) ∧
    (∀ (m : AgentManager) (qs : List String),
        ((chatN m qs).memory.countP (fun t => decide (t.1 = Role.user))
            = m.memory.countP (fun t => decide (t.1 = Role.user)) + qs.length) ∧
        ((chatN m qs).memory.countP (fun t => decide (t.1 = Role.agent))
            = m.memory.countP (fun t => decide (t.1 = Role.agent)) + qs.length)) := by
  constructor
  · intro m q
    exact ⟨_, _, (chat_step m q).1, ⟨chatCtx m q, rfl⟩, (chat_step m q).2⟩
  · intro m qs
    induction qs generalizing m with
    | nil => simp [chatN]
    | cons q qs ih =>
        have hmem := (chat_step m q).2
        have hu := (ih ((chat m q).2)).1
        have ha := (ih ((chat m q).2)).2
        constructor
        · rw [chatN, hu, hmem]
          simp [List.countP_append, List.countP_cons]
          omega
        · rw [chatN, ha, hmem]
          simp [List.countP_append, List.countP_cons]
          omega

/-- C3: for every query and positive `k`, `get_similar_docs` returns
exactly `min(k, indexSize)` chunks; they are the projection of a ranked
hit list that is sorted nearest-first with ties broken by smaller
insertion index; and when the index holds at most `k` entries the result
is a permutation of all stored chunks. -/
theorem c3_search_min_k_nearest_first (m : AgentManager) (q : String)
    (k : Int) (l : List String) (hk : 0 < k)
    (h : m.get_similar_docs q k = .ok l) :
    l.length = min k.toNat m.vector_store.entries.length ∧
    List.Sorted NearerFirst (m.vector_store.searchRanked (m.embed q) k.toNat) ∧
    l = (m.vector_store.searchRanked (m.embed q) k.toNat).map (fun r => r.2.1) ∧
    (m.vector_store.entries.length ≤ k.toNat →
        l.Perm (m.vector_store.entries.map Prod.fst)) := by
  unfold AgentManager.get_similar_docs VectorIndex.similarity_search at h
  rw [if_neg (by omega)] at h
  injection h with h
  subst h
  refine ⟨?_, sorted_searchRanked _ _ _, rfl, ?_⟩
  · simp [length_searchRanked]
  · intro hle
    have hperm := (searchRanked_perm_of_le m.vector_store (m.embed q)
      k.toNat hle).map (fun r => r.2.1)
    rwa [map_fst_scoreFrom] at hperm

/-- Witness for C3: a two-chunk index searched with k = 5. -/
theorem c3_search_min_k_nearest_first_witness :
    ([doc1, doc2] : List String).length
        = min (5 : Int).toNat mSearch.vector_store.entries.length ∧
    List.Sorted NearerFirst
        (mSearch.vector_store.searchRanked (mSearch.embed q0) (5 : Int).toNat) ∧
    [doc1, doc2]
        = (mSearch.vector_store.searchRanked (mSearch.embed q0) (5 : Int).toNat).map
            (fun r => r.2.1) ∧
    (mSearch.vector_store.entries.length ≤ (5 : Int).toNat →
        ([doc1, doc2] : List String).Perm (mSearch.vector_store.entries.map Prod.fst)) :=
  c3_search_min_k_nearest_first mSearch q0 5 [doc1, doc2] (by decide) rfl

/-- C4: an upload whose filename ends in neither `.txt` nor `.pdf` is
rejected with a 400 before anything runs: the agent state (vector store
included) is untouched, no temporary file is created, and the status is
distinct from the 500 used for processing failures. -/
theorem c4_bad_extension_rejected_before_core (m : AgentManager)
    (split : String → Nat → Nat → List String) (f : String)
    (e : Except String String)
    (hf : (pyEndsWith f txtExt || pyEndsWith f pdfExt) = false) :
    (upload_file m split f e).1.status = 400 ∧
    (upload_file m split f e).2 = m ∧
    (upload_file m split f e).1.tempCreated = false ∧
    (upload_file m split f e).1.status ≠ 500 := by
  simp [upload_file, hf]

/-- Witness for C4 at a concrete `.exe` upload. -/
theorem c4_bad_extension_rejected_before_core_witness :
    (upload_file mInit0 splitId fileExe (.ok textX)).1.status = 400 ∧
    (upload_file mInit0 splitId fileExe (.ok textX)).2 = mInit0 ∧
    (upload_file mInit0 splitId fileExe (.ok textX)).1.tempCreated = false ∧
    (upload_file mInit0 splitId fileExe (.ok textX)).1.status ≠ 500 :=
  c4_bad_extension_rejected_before_core mInit0 splitId fileExe (.ok textX) (by decide)

/-- C5: searching with `k ≤ 0` fails with the configuration error instead
of returning a result. -/
theorem c5_nonpositive_k_config_error (m : AgentManager) (q : String)
    (k : Int) (hk : k ≤ 0) :
    m.get_similar_docs q k = .error ConfigError.invalidK := by
  simp [AgentManager.get_similar_docs, VectorIndex.similarity_search, hk]

/-- Witness for C5 at k = 0. -/
theorem c5_nonpositive_k_config_error_witness :
    mInit0.get_similar_docs q0 0 = .error ConfigError.invalidK :=
  c5_nonpositive_k_config_error mInit0 q0 0 (by decide)

/-- C6: when `GOOGLE_API_KEY` is absent from the environment (unset, or
empty and hence falsy), process startup fails with the configuration
error, so no `App` exists and no request handler can run. -/
theorem c6_missing_api_key_fatal_at_startup (env : Env)
    (embed : String → Embedding) (llm : List (Role × String) → String → String)
    (pyRun : String → String)
    (h : env.lookup googleApiKeyName = none ∨
         env.lookup googleApiKeyName = some emptyStr) :
    startProcess env embed llm pyRun = .error ConfigError.missingApiKey := by
  unfold startProcess AgentManager.init getApiKey
  rcases h with h | h <;> simp [h, emptyStr]

/-- Witness for C6 with an environment holding no variables. -/
theorem c6_missing_api_key_fatal_at_startup_witness :
    startProcess envMissing embed0 llm0 py0 = .error ConfigError.missingApiKey :=
  c6_missing_api_key_fatal_at_startup envMissing embed0 llm0 py0 (Or.inl rfl)

/-- C7: any successfully started process holds a vector index with
exactly one entry, the placeholder empty-string chunk. -/
theorem c7_startup_index_single_empty_placeholder (env : Env)
    (embed : String → Embedding) (llm : List (Role × String) → String → String)
    (pyRun : String → String) (app : App)
    (h : startProcess env embed llm pyRun = .ok app) :
    app.manager.vector_store.entries.map Prod.fst = [emptyStr] ∧
    app.manager.vector_store.entries.length = 1 := by
  rw [init_ok_eq env embed llm pyRun app.manager (startProcess_ok env embed llm pyRun app h)]
  exact ⟨rfl, rfl⟩

/-- Witness for C7 at the concrete startup. -/
theorem c7_startup_index_single_empty_placeholder_witness :
    app0.manager.vector_store.entries.map Prod.fst = [emptyStr] ∧
    app0.manager.vector_store.entries.length = 1 :=
  c7_startup_index_single_empty_placeholder env0 embed0 llm0 py0 app0 rfl

/-- C8: the upload handler invokes the chunker only at the process-wide
constants `CHUNK_SIZE` and `CHUNK_OVERLAP` — two chunkers agreeing at
that configuration give identical upload behaviour on every input — and
the constants satisfy overlap ≤ chunk size − 1. -/
theorem c8_fixed_chunker_configuration
    (s1 s2 : String → Nat → Nat → List String) (m : AgentManager)
    (f : String) (e : Except String String)
    (h : ∀ t, s1 t CHUNK_SIZE CHUNK_OVERLAP = s2 t CHUNK_SIZE CHUNK_OVERLAP) :
    CHUNK_OVERLAP ≤ CHUNK_SIZE - 1 ∧
    upload_file m s1 f e = upload_file m s2 f e := by
  refine ⟨by decide, ?_⟩
  cases e with
  | error err => simp [upload_file]
  | ok text => simp [upload_file, h text]

/-- Witness for C8 with two distinct chunkers agreeing at the fixed
configuration. -/
theorem c8_fixed_chunker_configuration_witness :
    CHUNK_OVERLAP ≤ CHUNK_SIZE - 1 ∧
    upload_file mInit0 splitId fileTxt (.ok textX)
      = upload_file mInit0 splitAlt fileTxt (.ok textX) :=
  c8_fixed_chunker_configuration splitId splitAlt mInit0 fileTxt (.ok textX)
    (fun _ => rfl)

/-- C9: an upload passing the extension check whose processing raises
returns a 500, leaves the agent state (vector store included) exactly as
before, and deletes the temporary file; the success path deletes the
temporary file as well. -/
theorem c9_processing_failure_500_state_preserved (m : AgentManager)
    (split : String → Nat → Nat → List String) (f : String)
    (err : String) (txt : String)
    (hf : (pyEndsWith f txtExt || pyEndsWith f pdfExt) = true) :
    (upload_file m split f (.error err)).1.status = 500 ∧
    (upload_file m split f (.error err)).2 = m ∧
    (upload_file m split f (.error err)).1.tempCreated = true ∧
    (upload_file m split f (.error err)).1.tempDeleted = true ∧
    (upload_file m split f (.ok txt)).1.tempDeleted = true := by
  simp [upload_file, hf]

/-- Witness for C9 at a concrete failing `.txt` upload. -/
theorem c9_processing_failure_500_state_preserved_witness :
    (upload_file mInit0 splitId fileTxt (.error errBoom)).1.status = 500 ∧
    (upload_file mInit0 splitId fileTxt (.error errBoom)).2 = mInit0 ∧
    (upload_file mInit0 splitId fileTxt (.error errBoom)).1.tempCreated = true ∧
    (upload_file mInit0 splitId fileTxt (.error errBoom)).1.tempDeleted = true ∧
    (upload_file mInit0 splitId fileTxt (.ok textX)).1.tempDeleted = true :=
  c9_processing_failure_500_state_preserved mInit0 splitId fileTxt errBoom textX
    (by decide)

/-- C10: the only registered tool is the one named `calculator`, and its
invoke function is `PythonREPL.run` itself (the abstract interpreter
`pyRun`), applied unmodified to every input string — no arithmetic
restriction is interposed. -/
theorem c10_calculator_invoke_is_python_repl_run (env : Env)
    (embed : String → Embedding) (llm : List (Role × String) → String → String)
    (pyRun : String → String) (app : App) (s : String)
    (h : startProcess env embed llm pyRun = .ok app) :
    app.manager.tools = [calculator pyRun] ∧
    (calculator pyRun).name = calculatorName ∧
    (calculator pyRun).func = pyRun ∧
    (calculator pyRun).func s = pyRun s := by
  rw [init_ok_eq env embed llm pyRun app.manager (startProcess_ok env embed llm pyRun app h)]
  exact ⟨rfl, rfl, rfl, rfl⟩

/-- Witness for C10 at the concrete startup and a non-arithmetic program
text. -/
theorem c10_calculator_invoke_is_python_repl_run_witness :
    app0.manager.tools = [calculator py0] ∧
    (calculator py0).name = calculatorName ∧
    (calculator py0).func = py0 ∧
    (calculator py0).func pyProg = py0 pyProg :=
  c10_calculator_invoke_is_python_repl_run env0 embed0 llm0 py0 app0 pyProg rfl

end AIChatApp
